import Mathlib

/-!
# tibor-rest: an HTTP to Kafka gateway

A shallow embedding of the four Go source files
`internal/config/config.go`, `internal/kafka/client.go`,
`internal/handlers/produce.go` and `main.go`, followed by theorems about them.

Conventions of the embedding.

* Go's `int` and `time.Duration` are `Int`; no arithmetic is done on them, they
  are only compared with constants.
* Configuration strings (paths, topic, credentials) are `String`; data that the
  code handles as raw bytes (request bodies, response bodies, error texts that
  are written to the wire) are lists of `Byte`.
* Effects are explicit. `Run α` is the outcome of a run of straight-line code:
  the list of observable events in program order and either a value or the
  reason the run stopped (`panic`, `os.Exit`).
* Functions of libraries outside the repository (`os`, `crypto/x509`,
  `crypto/tls`, `cleanenv`, `kgo`) are fields of `World`, or small definitions
  that follow the library's documented behaviour.
-/

namespace TiborRest

/-! ## Bytes and Go strings -/

/-- One octet. -/
abbrev Byte := Fin 256

/-- A Go `string` or `[]byte` seen as its byte sequence. The conversions
`string(b)` and `[]byte(s)` copy the bytes unchanged, whether or not they are
valid UTF-8. -/
abbrev Bytes := List Byte

/-- Go `string(body)` for `body []byte`. -/
def stringOfBytes (b : Bytes) : Bytes := b

/-- Go `[]byte(s)` for `s string`. -/
def bytesOfString (s : Bytes) : Bytes := s

/-! ## `log/slog` and `kgo` log levels -/

/-- Go `slog.Level` is an `int`. -/
abbrev SlogLevel := Int

def slogLevelDebug : SlogLevel := -4
def slogLevelInfo : SlogLevel := 0
def slogLevelWarn : SlogLevel := 4
def slogLevelError : SlogLevel := 8

/-- An `*slog.Logger`, as far as this program observes it: the answer of
`Enabled(ctx, level)`, which is decided by the logger's handler. The context is
always `context.Background()`. -/
structure SlogLogger where
  Enabled : SlogLevel → Bool

/-- A logger whose handler has a minimum level, as the built-in text and JSON
handlers do: a level is enabled iff it is at or above the threshold. -/
def thresholdLogger (min : SlogLevel) : SlogLogger :=
  ⟨fun l => decide (min ≤ l)⟩

/-- Go `kgo.LogLevel` is an `int8` with constants given by `iota`. -/
abbrev LogLevel := Int

def LogLevelNone : LogLevel := 0
def LogLevelError : LogLevel := 1
def LogLevelWarn : LogLevel := 2
def LogLevelInfo : LogLevel := 3
def LogLevelDebug : LogLevel := 4

/-- Go `kafka.Logger`, client.go lines 102-104. -/
structure Logger where
  sl : SlogLogger

/-- Go `newKLogger`, client.go lines 107-109. -/
def newKLogger (sl : SlogLogger) : Logger := ⟨sl⟩

/-- Go `(*Logger).Level`, client.go lines 112-126: the cases of the `switch` are
tried in order. -/
def Logger.Level (l : Logger) : LogLevel :=
  if l.sl.Enabled slogLevelDebug then LogLevelDebug
  else if l.sl.Enabled slogLevelInfo then LogLevelInfo
  else if l.sl.Enabled slogLevelWarn then LogLevelWarn
  else if l.sl.Enabled slogLevelError then LogLevelError
  else LogLevelNone

/-- Go `kgoToSlogLevel`, client.go lines 133-147. -/
def kgoToSlogLevel (level : LogLevel) : SlogLevel :=
  if level = LogLevelError then slogLevelError
  else if level = LogLevelWarn then slogLevelWarn
  else if level = LogLevelInfo then slogLevelInfo
  else if level = LogLevelDebug then slogLevelDebug
  else slogLevelInfo

/-- One call of `sl.Log(ctx, level, msg, keyvals...)` as seen by the slog
logger. Key-value pairs are kept as an opaque list. -/
structure SlogCall where
  level : SlogLevel
  msg : String
  keyvals : List String
deriving DecidableEq, Repr

/-- Go `(*Logger).Log`, client.go lines 129-131: the call forwarded to slog. -/
def Logger.Log (_l : Logger) (level : LogLevel) (msg : String) (keyvals : List String) :
    SlogCall :=
  ⟨kgoToSlogLevel level, msg, keyvals⟩

/-! ## The produce handler -/

/-- A Go `error`, as far as the handler observes it: the text of `Error()`. -/
structure GoError where
  Error : Bytes
deriving DecidableEq, Repr

/-- An `io.Reader`: the chunks its successive `Read` calls deliver, and how the
stream ends, with `io.EOF` (`none`) or with another error. -/
structure Reader where
  chunks : List Bytes
  fail : Option GoError
deriving DecidableEq, Repr

/-- Go `io.ReadAll`: reads until `io.EOF` or an error and returns what was read so
far together with the error; `io.EOF` is reported as a nil error. -/
def ReadAll (r : Reader) : Bytes × Option GoError :=
  (r.chunks.flatten, r.fail)

/-- A `context.Context`, identified by a tag. -/
structure Context where
  id : Nat
deriving DecidableEq, Repr

/-- Go `*http.Request`: the parts the handler uses. -/
structure Request where
  Body : Reader
  ctx : Context
deriving DecidableEq, Repr

/-- Go `Request.Context`. -/
def Request.Context (r : Request) : Context := r.ctx

/-- Go `kgo.Record`: the fields relevant here. An empty `Topic` is the zero value,
that is, an unset topic. -/
structure Record where
  Key : Bytes := []
  Value : Bytes := []
  Topic : String := ""
deriving DecidableEq, Repr

/-- Go `kgo.StringRecord`: a record whose value aliases the bytes of the string
and whose other fields are zero. -/
def StringRecord (value : Bytes) : Record :=
  { Value := value }

/-- One call `ProduceSync(ctx, rs...)`. -/
structure ProduceCall where
  ctx : Context
  records : List Record
deriving DecidableEq, Repr

/-- Go `*kgo.Client`, as far as the handler observes it: the default produce topic
it was configured with and the `ProduceSync` calls made on it, oldest first. -/
structure Client where
  defaultProduceTopic : String
  calls : List ProduceCall
deriving DecidableEq, Repr

/-- Go `(*kgo.Client).ProduceSync`: the call is recorded; its results are not
looked at by the caller. -/
def Client.ProduceSync (cl : Client) (ctx : Context) (rs : List Record) : Client :=
  { cl with calls := cl.calls ++ [⟨ctx, rs⟩] }

/-- The topic `kgo` produces a record to: the record's own topic, or the
client's default produce topic when the record's topic is empty. -/
def Client.produceTopic (cl : Client) (r : Record) : String :=
  if r.Topic = "" then cl.defaultProduceTopic else r.Topic

/-- An `http.ResponseWriter` of `net/http`: the committed status line, if any,
and the body bytes written so far. -/
structure ResponseWriter where
  status : Option Nat
  body : Bytes
deriving DecidableEq, Repr

/-- A writer on which nothing has been written yet. -/
def ResponseWriter.fresh : ResponseWriter := ⟨none, []⟩

def StatusOK : Nat := 200
def StatusExpectationFailed : Nat := 417

/-- Go `ResponseWriter.WriteHeader` of `net/http`: commits the status unless one
is committed already, in which case the call is superfluous and ignored. -/
def ResponseWriter.WriteHeader (w : ResponseWriter) (code : Nat) : ResponseWriter :=
  match w.status with
  | some _ => w
  | none => { w with status := some code }

/-- Go `ResponseWriter.Write` of `net/http`: if no status is committed yet it
first calls `WriteHeader(http.StatusOK)`, then appends the data. -/
def ResponseWriter.Write (w : ResponseWriter) (data : Bytes) : ResponseWriter :=
  let w1 := match w.status with
    | some _ => w
    | none => w.WriteHeader StatusOK
  { w1 with body := w1.body ++ data }

/-- The handler returned by `ProduceKafkaEventHandler(kafkaClient)`,
produce.go lines 10-21, as a function of the writer, the request and the
client, returning the writer and the client afterwards. -/
def ProduceKafkaEventHandler (kafkaClient : Client) (w : ResponseWriter) (r : Request) :
    ResponseWriter × Client :=
  match ReadAll r.Body with
  | (_, some err) =>
    let w := w.Write (bytesOfString err.Error)
    let w := w.WriteHeader StatusExpectationFailed
    (w, kafkaClient)
  | (body, none) =>
    (w, kafkaClient.ProduceSync r.Context [StringRecord (stringOfBytes body)])

/-! ## Configuration, config.go -/

/-- Go `config.TLSConfig`, config.go lines 32-37. -/
structure TLSConfig where
  Enabled : Bool := false
  CAPath : String := ""
  CertPath : String := ""
  KeyPath : String := ""
deriving DecidableEq, Repr

/-- Go `config.KafkaAuth`, config.go lines 25-30. -/
structure KafkaAuth where
  Username : String := ""
  Password : String := ""
  Scram : Int := 0
  TLS : TLSConfig := {}
deriving DecidableEq, Repr

/-- Go `config.KafkaConfig`, config.go lines 16-23. -/
structure KafkaConfig where
  Brokers : List String := []
  Auth : KafkaAuth := {}
  Topic : String := ""
deriving DecidableEq, Repr

/-- Go `config.Config`, config.go lines 12-14. -/
structure Config where
  Kafka : KafkaConfig := {}
deriving DecidableEq, Repr

/-! ## Events, stops and runs -/

/-- Observable actions of the program, in the order they happen. -/
inductive Event where
  /-- Go `os.ReadFile(path)`. -/
  | readFile (path : String)
  /-- Go `tls.LoadX509KeyPair(certFile, keyFile)`, which reads both files. -/
  | loadX509KeyPair (certFile keyFile : String)
  /-- Go `os.Getenv(name)`. -/
  | getenv (name : String)
  /-- Go `os.Getwd()`. -/
  | getwd
  /-- Go `cleanenv.ReadConfig(fileName, &c)`. -/
  | readConfig (fileName : String)
  /-- Go `fmt.Printf` to standard output. -/
  | printf
  /-- Go `kgo.NewClient(opts...)`. -/
  | newClient
  /-- Go `slog.Error(...)`. -/
  | slogError
  /-- Go `slog.Info(msg)`. -/
  | slogInfo (msg : String)
  /-- Go `chi.NewRouter()` and `r.Post(pattern, handler)`. -/
  | routerPost (pattern : String)
  /-- The `http.Server` value is created for the address. -/
  | newServer (addr : String)
  /-- The goroutine of main.go lines 40-44 is started: `srv.ListenAndServe()`
  binds the listener and serves. -/
  | listenAndServe
  /-- Go `signal.Notify(appStop, ...)`. -/
  | signalNotify
  /-- Go `<-appStop` returned: a signal arrived. -/
  | signalReceived
  /-- Go `srv.Shutdown(ctx)` with the timeout of `ctx` in nanoseconds. -/
  | shutdown (timeout : Int)
deriving DecidableEq, Repr

/-- Why a run stopped before its end: one constructor per `panic` site of the
repository, and `os.Exit`. -/
inductive Stop where
  /-- Client.go line 42: `panic(fmt.Errorf("unable to read CA: %w", err))`. -/
  | unableToReadCA (err : String)
  /-- Client.go line 46: `panic(fmt.Errorf("unable to append CA: %s", path))`. -/
  | unableToAppendCA (path : String)
  /-- Client.go line 55: `panic("both kafka cert and key path must be specified")`. -/
  | certAndKeyBoth
  /-- Client.go line 59: `panic(fmt.Errorf("unable to load kafka cert and key pair ..."))`. -/
  | unableToLoadKeyPair (certPath keyPath : String) (err : String)
  /-- Client.go line 88: `panic(fmt.Sprintf("invalid scram alg ...", conf.Auth.Scram))`. -/
  | invalidScram (alg : Int)
  /-- Config.go line 50: `panic(err)` after `os.Getwd`. -/
  | getwdFailed (err : String)
  /-- Config.go line 59: `panic(err)` after `cleanenv.ReadConfig`. -/
  | readConfigFailed (err : String)
  /-- Go `os.Exit(code)`. -/
  | exit (code : Int)
deriving DecidableEq, Repr

/-- The outcome of running a piece of code: the events it caused, in order,
and its value, or the reason it stopped. -/
structure Run (α : Type) where
  trace : List Event
  result : Except Stop α

/-- A run that causes nothing and yields `a`. -/
def Run.pure {α : Type} (a : α) : Run α := ⟨[], .ok a⟩

/-- Sequencing: when the first run stops, the second is not started. -/
def Run.bind {α β : Type} (m : Run α) (f : α → Run β) : Run β :=
  match m.result with
  | .error s => ⟨m.trace, .error s⟩
  | .ok a => ⟨m.trace ++ (f a).trace, (f a).result⟩

instance : Monad Run where
  pure := Run.pure
  bind := Run.bind

/-- Stop the run: `panic(v)` or `os.Exit(code)`. -/
def stop {α : Type} (s : Stop) : Run α := ⟨[], .error s⟩

/-- Cause one event and yield `a`. -/
def act {α : Type} (e : Event) (a : α) : Run α := ⟨[e], .ok a⟩

/-! ## Certificates -/

/-- An `*x509.Certificate`, identified by its DER bytes. -/
structure X509Certificate where
  Raw : Bytes
deriving DecidableEq, Repr

/-- A `tls.Certificate`: a certificate chain with its private key, identified
by a tag. -/
structure TLSCertificate where
  id : Nat
deriving DecidableEq, Repr

/-- An `*x509.CertPool`: the certificates it holds, without duplicates. -/
structure CertPool where
  certs : List X509Certificate
deriving DecidableEq, Repr

/-- Go `x509.NewCertPool()`: a new, empty pool. -/
def NewCertPool : CertPool := ⟨[]⟩

/-- Go `(*CertPool).AddCert`: adds the certificate unless the pool has it. -/
def CertPool.AddCert (s : CertPool) (c : X509Certificate) : CertPool :=
  if c ∈ s.certs then s else ⟨s.certs ++ [c]⟩

/-! ## Client options, client.go -/

/-- Go `tls.VersionTLS12`. -/
def VersionTLS12 : Nat := 0x0303

/-- Go `time.Second`, in nanoseconds. -/
def Second : Int := 1000000000

/-- A `*tls.Config`: the fields the program sets. The others keep their zero
value: `RootCAs` nil, `MinVersion` 0, `Certificates` nil. -/
structure TLSConf where
  RootCAs : Option CertPool := none
  MinVersion : Nat := 0
  Certificates : List TLSCertificate := []
deriving DecidableEq, Repr

/-- A `*net.Dialer`: the field the program sets. -/
structure NetDialer where
  Timeout : Int := 0
deriving DecidableEq, Repr

/-- A `*tls.Dialer`. `Config` may be nil. -/
structure TLSDialer where
  NetDialer : NetDialer
  Config : Option TLSConf
deriving DecidableEq, Repr

/-- The configuration `crypto/tls` works with for a `*tls.Config` that may be
nil: a nil configuration is equivalent to the zero configuration. -/
def effectiveConfig (c : Option TLSConf) : TLSConf :=
  match c with
  | none => {}
  | some c => c

/-- The lowest protocol version a `crypto/tls` client accepts under a
configuration: `MinVersion`, or TLS 1.2 when `MinVersion` is zero. -/
def clientMinVersion (c : Option TLSConf) : Nat :=
  if (effectiveConfig c).MinVersion = 0 then VersionTLS12 else (effectiveConfig c).MinVersion

/-- The dial function given to `kgo.Dialer`: the `DialContext` method of a
plain or of a TLS dialer. -/
inductive DialFn where
  | net (d : NetDialer)
  | tls (d : TLSDialer)
deriving DecidableEq, Repr

/-- The mechanism named by a `sasl.Mechanism`. -/
inductive SASLKind where
  | plain
  | scramSha256
  | scramSha512
deriving DecidableEq, Repr

/-- A `sasl.Mechanism` as built by `plain.Auth.AsMechanism`,
`scram.Auth.AsSha256Mechanism` and `scram.Auth.AsSha512Mechanism`. -/
structure Mechanism where
  kind : SASLKind
  User : String
  Pass : String
deriving DecidableEq, Repr

/-- A `kgo.Opt`: the options this program builds. -/
inductive Opt where
  | SeedBrokers (seeds : List String)
  | WithLogger (l : Logger)
  | DefaultProduceTopic (t : String)
  | Dialer (fn : DialFn)
  | SASL (m : Mechanism)

/-- The seed broker lists among the options, in order. -/
def seedBrokersOf (opts : List Opt) : List (List String) :=
  opts.filterMap fun o => match o with
    | .SeedBrokers s => some s
    | _ => none

/-- The default produce topics among the options, in order. -/
def produceTopicsOf (opts : List Opt) : List String :=
  opts.filterMap fun o => match o with
    | .DefaultProduceTopic t => some t
    | _ => none

/-- The dial functions among the options, in order. -/
def dialersOf (opts : List Opt) : List DialFn :=
  opts.filterMap fun o => match o with
    | .Dialer d => some d
    | _ => none

/-- The SASL mechanisms among the options, in order. -/
def saslOf (opts : List Opt) : List Mechanism :=
  opts.filterMap fun o => match o with
    | .SASL m => some m
    | _ => none

/-! ## The world outside the process -/

/-- What lies outside the process and outside the repository. -/
structure World where
  /-- Go `os.ReadFile`: the contents of the file, or an error text. -/
  ReadFile : String → Except String Bytes
  /-- The certificates that `AppendCertsFromPEM` finds in PEM data: the
  `CERTIFICATE` blocks without headers that parse, in order. -/
  pemCertificates : Bytes → List X509Certificate
  /-- Go `tls.LoadX509KeyPair`: the parsed pair, or an error text. -/
  LoadX509KeyPair : String → String → Except String TLSCertificate
  /-- Go `os.Getenv`. -/
  Getenv : String → String
  /-- Go `os.Getwd`. -/
  Getwd : Except String String
  /-- Go `cleanenv.ReadConfig`: the configuration read from the file and the
  environment, or an error text. -/
  ReadConfig : String → Except String Config
  /-- Go `strings.ToLower`. -/
  ToLower : String → String
  /-- Go `profile.Current` of `internal/profile`, as a string. -/
  profileCurrent : String
  /-- Go `kgo.NewClient`: the client for the options, or an error text. -/
  NewClient : List Opt → Except String Client

/-- Go `(*CertPool).AppendCertsFromPEM`: adds every certificate found in the PEM
data and reports whether at least one was found. -/
def CertPool.AppendCertsFromPEM (w : World) (s : CertPool) (pemCerts : Bytes) :
    CertPool × Bool :=
  ((w.pemCertificates pemCerts).foldl CertPool.AddCert s,
   !(w.pemCertificates pemCerts).isEmpty)

/-- The process-wide variables the program reads and writes: `config.Conf`
(config.go lines 39-41) and the default logger of `log/slog`. -/
structure Globals where
  Conf : Config := {}
  slogDefault : SlogLogger

/-- Go `os.ReadFile` as an action. -/
def osReadFile (w : World) (path : String) : Run (Except String Bytes) :=
  act (.readFile path) (w.ReadFile path)

/-- Go `tls.LoadX509KeyPair` as an action. -/
def tlsLoadX509KeyPair (w : World) (certFile keyFile : String) :
    Run (Except String TLSCertificate) :=
  act (.loadX509KeyPair certFile keyFile) (w.LoadX509KeyPair certFile keyFile)

/-! ## `GetDefaultConfig` -/

/-- Client.go lines 39-52, the `if conf.Auth.TLS.CAPath != ""` block: the value
of `tlsConfig` after it, given its value before (`none` is nil). -/
def caBlock (w : World) (tls : TLSConfig) (tlsConfig : Option TLSConf) :
    Run (Option TLSConf) :=
  if tls.CAPath ≠ "" then do
    let caCert ← osReadFile w tls.CAPath
    match caCert with
    | .error err => stop (.unableToReadCA err)
    | .ok caCert =>
      let pool := NewCertPool
      let (pool, ok) := pool.AppendCertsFromPEM w caCert
      if !ok then
        stop (.unableToAppendCA tls.CAPath)
      else
        pure (some { RootCAs := some pool, MinVersion := VersionTLS12 })
  else
    pure tlsConfig

/-- Client.go lines 53-67, the `if CertPath != "" || KeyPath != ""` block: the
value of `tlsConfig` after it, given its value before. -/
def keyPairBlock (w : World) (tls : TLSConfig) (tlsConfig : Option TLSConf) :
    Run (Option TLSConf) :=
  if tls.CertPath ≠ "" ∨ tls.KeyPath ≠ "" then
    if tls.CertPath = "" ∨ tls.KeyPath = "" then
      stop .certAndKeyBoth
    else do
      let cert ← tlsLoadX509KeyPair w tls.CertPath tls.KeyPath
      match cert with
      | .error err => stop (.unableToLoadKeyPair tls.CertPath tls.KeyPath err)
      | .ok cert =>
        let tlsConfig : TLSConf := match tlsConfig with
          | none => { MinVersion := VersionTLS12 }
          | some c => c
        pure (some { tlsConfig with Certificates := tlsConfig.Certificates ++ [cert] })
  else
    pure tlsConfig

/-- Client.go lines 36-76, `var tlsConfig` and the `if conf.Auth.TLS.Enabled`
statement: the dialer option that is appended. -/
def dialerBlock (w : World) (conf : KafkaConfig) : Run Opt :=
  let tlsConfig : Option TLSConf := none
  if conf.Auth.TLS.Enabled then do
    let tlsConfig ← caBlock w conf.Auth.TLS tlsConfig
    let tlsConfig ← keyPairBlock w conf.Auth.TLS tlsConfig
    let tlsDialer : TLSDialer :=
      { NetDialer := { Timeout := 10 * Second }, Config := tlsConfig }
    pure (Opt.Dialer (.tls tlsDialer))
  else
    let plainDialer : NetDialer := { Timeout := 10 * Second }
    pure (Opt.Dialer (.net plainDialer))

/-- Client.go lines 78-95, the `if conf.Auth.Scram != 0` statement: the SASL
option that is appended. -/
def saslBlock (conf : KafkaConfig) : Run Opt :=
  if conf.Auth.Scram ≠ 0 then
    if conf.Auth.Scram = 256 then
      pure (Opt.SASL ⟨.scramSha256, conf.Auth.Username, conf.Auth.Password⟩)
    else if conf.Auth.Scram = 512 then
      pure (Opt.SASL ⟨.scramSha512, conf.Auth.Username, conf.Auth.Password⟩)
    else
      stop (.invalidScram conf.Auth.Scram)
  else
    pure (Opt.SASL ⟨.plain, conf.Auth.Username, conf.Auth.Password⟩)

/-- Go `GetDefaultConfig`, client.go lines 29-98. The default produce topic is
read from the process-wide `config.Conf`, the logger from `slog.Default()`. -/
def GetDefaultConfig (w : World) (g : Globals) (conf : KafkaConfig) : Run (List Opt) := do
  let options := [
    Opt.SeedBrokers conf.Brokers,
    Opt.WithLogger (newKLogger g.slogDefault),
    Opt.DefaultProduceTopic g.Conf.Kafka.Topic ]
  let dialer ← dialerBlock w conf
  let options := options ++ [dialer]
  let sasl ← saslBlock conf
  let options := options ++ [sasl]
  return options

/-! ## `InitConfig`, `kafka.New` and `main` -/

/-- Go `InitConfig`, config.go lines 43-63: the configuration read, and the
process-wide variables after the assignment `Conf = c`. -/
def InitConfig (w : World) (g : Globals) : Run (Config × Globals) := do
  let confFile ← act (.getenv "CONFIG_FILE") (w.Getenv "CONFIG_FILE")
  let fileName ←
    if confFile = "" then do
      let wd ← act .getwd w.Getwd
      match wd with
      | .error err => stop (.getwdFailed err)
      | .ok wd => pure (wd ++ "/conf-" ++ w.ToLower w.profileCurrent ++ ".yaml")
    else
      pure confFile
  let err ← act (.readConfig fileName) (w.ReadConfig fileName)
  match err with
  | .error err => do
    act .printf ()
    stop (.readConfigFailed err)
  | .ok c => pure (c, { g with Conf := c })

/-- Go `kafka.New`, client.go lines 20-27. `errors.Join` separates the texts of
the two errors by a newline. -/
def New (w : World) (opts : List Opt) : Run (Except String Client) := do
  let r ← act .newClient (w.NewClient opts)
  match r with
  | .error err => pure (.error (err ++ "\n" ++ "failed to create kafka client"))
  | .ok client => pure (.ok client)

/-- Go `setupServer`, main.go lines 50-54: the router serves `POST /` with the
produce handler of the client. -/
def setupServer (kafkaClient : Client) :
    Run (ResponseWriter → Request → ResponseWriter × Client) :=
  act (.routerPost "/") (ProduceKafkaEventHandler kafkaClient)

/-- Go `cleanup`, main.go lines 63-68. -/
def cleanup : Run Unit :=
  act (.shutdown (10 * Second)) ()

/-- Go `handleSigterm`, main.go lines 56-61, on a run in which a signal arrives. -/
def handleSigterm : Run Unit := do
  act .signalNotify ()
  act .signalReceived ()
  act (.slogInfo "Received sigterm shutting down") ()
  cleanup

/-- Go `main`, main.go lines 22-48, as the sequence of actions of the main
goroutine. The default logger is replaced by one with a text handler, whose
minimum level is `slog.LevelInfo`. -/
def main (w : World) (g : Globals) : Run Unit := do
  let (_, g) ← InitConfig w g
  let logger := thresholdLogger slogLevelInfo
  let g := { g with slogDefault := logger }
  let opts ← GetDefaultConfig w g g.Conf.Kafka
  let r ← New w opts
  match r with
  | .error _ => do
    act .slogError ()
    stop (.exit 1)
  | .ok kClient => do
    let _server ← setupServer kClient
    act (.newServer ":8080") ()
    act .listenAndServe ()
    act (.slogInfo "Started server") ()
    handleSigterm

/-! ## Sample worlds and configurations -/

/-- A world with a CA file `ca.pem` holding one certificate, a file `junk.pem`
holding none, and a key pair `cert.pem`, `key.pem`; every other file is
missing. The configuration file is named by `CONFIG_FILE`. -/
def sampleWorld (c : Config) : World where
  ReadFile := fun path =>
    if path = "ca.pem" then .ok [1, 2, 3]
    else if path = "junk.pem" then .ok [9]
    else .error "no such file"
  pemCertificates := fun data => if data = [1, 2, 3] then [⟨[1, 2, 3]⟩] else []
  LoadX509KeyPair := fun certFile keyFile =>
    if certFile = "cert.pem" ∧ keyFile = "key.pem" then .ok ⟨1⟩ else .error "no such file"
  Getenv := fun name => if name = "CONFIG_FILE" then "conf.yaml" else ""
  Getwd := .ok "/app"
  ReadConfig := fun fileName => if fileName = "conf.yaml" then .ok c else .error "no such file"
  ToLower := fun x => x
  profileCurrent := "dev"
  NewClient := fun opts => .ok ⟨(produceTopicsOf opts).getLastD "", []⟩

/-- Process-wide variables before `main`: `Conf` is the zero value and the
default logger has the minimum level info. -/
def sampleGlobals : Globals := { Conf := {}, slogDefault := thresholdLogger slogLevelInfo }

/-- A configuration with TLS and the three paths as given. -/
def sampleConf (enabled : Bool) (ca cert key : String) (scram : Int) : KafkaConfig :=
  { Brokers := ["broker:9092"],
    Topic := "events",
    Auth := { Username := "user", Password := "secret", Scram := scram,
              TLS := { Enabled := enabled, CAPath := ca, CertPath := cert, KeyPath := key } } }

/-! ## Theorems: the logger adapter -/

/-- An enabled slog level bounds `Level` from below. -/
theorem Level_lower_bounds (sl : SlogLogger) :
    (sl.Enabled slogLevelDebug = true → LogLevelDebug ≤ (newKLogger sl).Level) ∧
    (sl.Enabled slogLevelInfo = true → LogLevelInfo ≤ (newKLogger sl).Level) ∧
    (sl.Enabled slogLevelWarn = true → LogLevelWarn ≤ (newKLogger sl).Level) ∧
    (sl.Enabled slogLevelError = true → LogLevelError ≤ (newKLogger sl).Level) ∧
    LogLevelNone ≤ (newKLogger sl).Level := by
  cases hd : sl.Enabled slogLevelDebug <;> cases hi : sl.Enabled slogLevelInfo <;>
    cases hw : sl.Enabled slogLevelWarn <;> cases he : sl.Enabled slogLevelError <;>
    simp [Logger.Level, newKLogger, hd, hi, hw, he, LogLevelNone, LogLevelError,
      LogLevelWarn, LogLevelInfo, LogLevelDebug]

/-- For a threshold logger, a disabled slog level bounds `Level` from above:
the levels above the threshold are all enabled, so a disabled level leaves only
less verbose ones. -/
theorem Level_upper_bounds (min : Int) :
    ((thresholdLogger min).Enabled slogLevelDebug = false →
      (newKLogger (thresholdLogger min)).Level < LogLevelDebug) ∧
    ((thresholdLogger min).Enabled slogLevelInfo = false →
      (newKLogger (thresholdLogger min)).Level < LogLevelInfo) ∧
    ((thresholdLogger min).Enabled slogLevelWarn = false →
      (newKLogger (thresholdLogger min)).Level < LogLevelWarn) ∧
    ((thresholdLogger min).Enabled slogLevelError = false →
      (newKLogger (thresholdLogger min)).Level < LogLevelError) := by
  have e : ∀ k : Int, (thresholdLogger min).Enabled k = decide (min ≤ k) := fun _ => rfl
  simp only [Logger.Level, newKLogger, e, slogLevelDebug, slogLevelInfo, slogLevelWarn,
    slogLevelError, LogLevelNone, LogLevelError, LogLevelWarn, LogLevelInfo, LogLevelDebug,
    decide_eq_true_eq, decide_eq_false_iff_not]
  refine ⟨?_, ?_, ?_, ?_⟩ <;> intro h <;> split_ifs <;> first | decide | (exfalso; omega)

/-- C9. For every slog logger, `Logger.Level` returns the most verbose of the
four levels debug, info, warn, error that the logger reports as enabled, and
returns `LogLevelNone` if and only if none of the four is enabled. -/
theorem Level_most_verbose_enabled (sl : SlogLogger) :
    (sl.Enabled slogLevelDebug = true → (newKLogger sl).Level = LogLevelDebug) ∧
    (sl.Enabled slogLevelDebug = false → sl.Enabled slogLevelInfo = true →
      (newKLogger sl).Level = LogLevelInfo) ∧
    (sl.Enabled slogLevelDebug = false → sl.Enabled slogLevelInfo = false →
      sl.Enabled slogLevelWarn = true → (newKLogger sl).Level = LogLevelWarn) ∧
    (sl.Enabled slogLevelDebug = false → sl.Enabled slogLevelInfo = false →
      sl.Enabled slogLevelWarn = false → sl.Enabled slogLevelError = true →
      (newKLogger sl).Level = LogLevelError) ∧
    ((newKLogger sl).Level = LogLevelNone ↔
      (sl.Enabled slogLevelDebug = false ∧ sl.Enabled slogLevelInfo = false ∧
       sl.Enabled slogLevelWarn = false ∧ sl.Enabled slogLevelError = false)) := by
  cases hd : sl.Enabled slogLevelDebug <;> cases hi : sl.Enabled slogLevelInfo <;>
    cases hw : sl.Enabled slogLevelWarn <;> cases he : sl.Enabled slogLevelError <;>
    simp [Logger.Level, newKLogger, hd, hi, hw, he, LogLevelNone, LogLevelError,
      LogLevelWarn, LogLevelInfo, LogLevelDebug]

/-- C9 at a text-handler logger with minimum level warn, and at a logger that
enables nothing. -/
theorem Level_most_verbose_enabled_witness :
    (newKLogger (thresholdLogger slogLevelWarn)).Level = LogLevelWarn ∧
    (newKLogger ⟨fun _ => false⟩).Level = LogLevelNone :=
  ⟨(Level_most_verbose_enabled (thresholdLogger slogLevelWarn)).2.2.1
      (by decide) (by decide) (by decide),
   (Level_most_verbose_enabled ⟨fun _ => false⟩).2.2.2.2.2
      ⟨rfl, rfl, rfl, rfl⟩⟩

/-- C10. With kgo levels ordered none < error < warn < info < debug: if logger
`A` enables every one of the four slog levels that logger `B` enables, then
`Level` of `A` is at least `Level` of `B`; and for a slog logger with a
minimum-level threshold, every kgo level `L` among error, warn, info, debug
with `L` at most `Level()` is forwarded by `Logger.Log` at a slog level that the
logger has enabled. -/
theorem Level_monotone_and_log_kept :
    (∀ A B : SlogLogger,
      (∀ s ∈ [slogLevelDebug, slogLevelInfo, slogLevelWarn, slogLevelError],
        B.Enabled s = true → A.Enabled s = true) →
      (newKLogger B).Level ≤ (newKLogger A).Level) ∧
    (∀ (min : SlogLevel) (L : LogLevel) (msg : String) (keyvals : List String),
      L ∈ [LogLevelError, LogLevelWarn, LogLevelInfo, LogLevelDebug] →
      L ≤ (newKLogger (thresholdLogger min)).Level →
      (thresholdLogger min).Enabled
        ((newKLogger (thresholdLogger min)).Log L msg keyvals).level = true) := by
  constructor
  · intro A B h
    have hd := h slogLevelDebug (by simp)
    have hi := h slogLevelInfo (by simp)
    have hw := h slogLevelWarn (by simp)
    have he := h slogLevelError (by simp)
    obtain ⟨ad, ai, aw, ae, a0⟩ := Level_lower_bounds A
    generalize (newKLogger A).Level = a at *
    simp only [Logger.Level, newKLogger]
    split_ifs with bd bi bw be
    · exact ad (hd bd)
    · exact ai (hi bi)
    · exact aw (hw bw)
    · exact ae (he be)
    · exact a0
  · intro min L msg keyvals hL hle
    have hmin : ∀ k : Int, (thresholdLogger min).Enabled k = true ↔ min ≤ k := by
      intro k
      simp [thresholdLogger]
    obtain ⟨ud, ui, uw, ue⟩ := Level_upper_bounds min
    simp only [Logger.Log]
    generalize (newKLogger (thresholdLogger min)).Level = lv at *
    simp only [List.mem_cons, List.mem_singleton, List.not_mem_nil, or_false] at hL
    rcases hL with rfl | rfl | rfl | rfl
    · have h1 : (thresholdLogger min).Enabled slogLevelError = true := by
        by_contra hc
        exact absurd (ue (by simpa using hc)) (by simpa [LogLevelError] using hle)
      simpa [kgoToSlogLevel] using h1
    · have h1 : (thresholdLogger min).Enabled slogLevelWarn = true := by
        by_contra hc
        exact absurd (uw (by simpa using hc)) (by simpa [LogLevelWarn] using hle)
      simpa [kgoToSlogLevel, LogLevelWarn, LogLevelError] using h1
    · have h1 : (thresholdLogger min).Enabled slogLevelInfo = true := by
        by_contra hc
        exact absurd (ui (by simpa using hc)) (by simpa [LogLevelInfo] using hle)
      simpa [kgoToSlogLevel, LogLevelWarn, LogLevelError, LogLevelInfo] using h1
    · have h1 : (thresholdLogger min).Enabled slogLevelDebug = true := by
        by_contra hc
        exact absurd (ud (by simpa using hc)) (by simpa [LogLevelDebug] using hle)
      simpa [kgoToSlogLevel, LogLevelWarn, LogLevelError, LogLevelInfo, LogLevelDebug] using h1

/-- C10 at two text-handler loggers, thresholds debug and warn, and at the
kgo level warn on the logger with threshold info. -/
theorem Level_monotone_and_log_kept_witness :
    (newKLogger (thresholdLogger slogLevelWarn)).Level ≤
      (newKLogger (thresholdLogger slogLevelDebug)).Level ∧
    (thresholdLogger slogLevelInfo).Enabled
      ((newKLogger (thresholdLogger slogLevelInfo)).Log LogLevelWarn "m" []).level = true :=
  ⟨Level_monotone_and_log_kept.1 (thresholdLogger slogLevelDebug)
      (thresholdLogger slogLevelWarn) (by decide),
   Level_monotone_and_log_kept.2 slogLevelInfo LogLevelWarn "m" [] (by decide) (by decide)⟩

/-! ## Theorems: the produce handler -/

/-- The handler's result when the body is read without error. -/
theorem handler_of_read_ok (cl : Client) (w : ResponseWriter) (r : Request)
    (h : r.Body.fail = none) :
    ProduceKafkaEventHandler cl w r =
      (w, cl.ProduceSync r.Context [StringRecord (stringOfBytes r.Body.chunks.flatten)]) := by
  simp [ProduceKafkaEventHandler, ReadAll, h]

/-- The handler's result when the body read fails with `e`. -/
theorem handler_of_read_error (cl : Client) (w : ResponseWriter) (r : Request) (e : GoError)
    (h : r.Body.fail = some e) :
    ProduceKafkaEventHandler cl w r =
      (((w.Write (bytesOfString e.Error)).WriteHeader StatusExpectationFailed), cl) := by
  simp [ProduceKafkaEventHandler, ReadAll, h]

/-- C1. For every request whose body is read without error, the handler makes
exactly one `ProduceSync` call, with the request's own context and exactly one
record, whose value is the request body byte for byte (any byte sequence) and
whose topic is unset, so that the client's default produce topic is used; for
every request whose body read fails, it makes no `ProduceSync` call. -/
theorem handler_produces_body_once (cl : Client) (w : ResponseWriter) (r : Request) :
    (r.Body.fail = none →
      (ProduceKafkaEventHandler cl w r).2.calls =
        cl.calls ++ [⟨r.ctx, [{ Key := [], Value := r.Body.chunks.flatten, Topic := "" }]⟩] ∧
      (ProduceKafkaEventHandler cl w r).2.produceTopic
        { Key := [], Value := r.Body.chunks.flatten, Topic := "" } = cl.defaultProduceTopic) ∧
    (r.Body.fail ≠ none → (ProduceKafkaEventHandler cl w r).2.calls = cl.calls) := by
  constructor
  · intro h
    rw [handler_of_read_ok cl w r h]
    simp [Client.ProduceSync, Client.produceTopic, StringRecord, stringOfBytes,
      Request.Context]
  · intro h
    cases hf : r.Body.fail with
    | none => exact absurd hf h
    | some e => rw [handler_of_read_error cl w r e hf]

/-- C1 at a body of two chunks holding bytes that are not valid UTF-8, at the
empty body, and at a body whose read fails. -/
theorem handler_produces_body_once_witness :
    (ProduceKafkaEventHandler ⟨"events", []⟩ .fresh ⟨⟨[[0xff, 0xfe], [0x80]], none⟩, ⟨7⟩⟩).2.calls
      = [⟨⟨7⟩, [{ Key := [], Value := [0xff, 0xfe, 0x80], Topic := "" }]⟩] ∧
    (ProduceKafkaEventHandler ⟨"events", []⟩ .fresh ⟨⟨[], none⟩, ⟨8⟩⟩).2.calls
      = [⟨⟨8⟩, [{ Key := [], Value := [], Topic := "" }]⟩] ∧
    (ProduceKafkaEventHandler ⟨"events", []⟩ .fresh ⟨⟨[[0x68]], some ⟨[0x45]⟩⟩, ⟨9⟩⟩).2.calls
      = [] :=
  ⟨((handler_produces_body_once ⟨"events", []⟩ .fresh
      ⟨⟨[[0xff, 0xfe], [0x80]], none⟩, ⟨7⟩⟩).1 rfl).1,
   ((handler_produces_body_once ⟨"events", []⟩ .fresh ⟨⟨[], none⟩, ⟨8⟩⟩).1 rfl).1,
   (handler_produces_body_once ⟨"events", []⟩ .fresh
      ⟨⟨[[0x68]], some ⟨[0x45]⟩⟩, ⟨9⟩⟩).2 (by decide)⟩

/-- On a writer with no status yet, a failed body read leaves the response
with status 200 and the error text as its body: `Write` commits 200 and the
`WriteHeader(417)` that follows it is ignored. -/
theorem handler_read_error_response (cl : Client) (r : Request) (e : GoError)
    (h : r.Body.fail = some e) :
    (ProduceKafkaEventHandler cl .fresh r).1 = ⟨some StatusOK, e.Error⟩ := by
  rw [handler_of_read_error cl .fresh r e h]
  simp [ResponseWriter.Write, ResponseWriter.WriteHeader, ResponseWriter.fresh, bytesOfString]

/-- C2, at a request whose body read fails after the bytes `he` with the error
text `EOF`: the response body is the error text, but the status the handler
leaves is 200, not 417. -/
theorem handler_read_error_status_is_200 :
    (ProduceKafkaEventHandler ⟨"events", []⟩ .fresh
      ⟨⟨[[0x68, 0x65]], some ⟨[0x45, 0x4f, 0x46]⟩⟩, ⟨1⟩⟩).1
      = ⟨some 200, [0x45, 0x4f, 0x46]⟩ ∧
    (ProduceKafkaEventHandler ⟨"events", []⟩ .fresh
      ⟨⟨[[0x68, 0x65]], some ⟨[0x45, 0x4f, 0x46]⟩⟩, ⟨1⟩⟩).1.status
      ≠ some StatusExpectationFailed := by
  decide

/-! ## Lemmas: runs -/

theorem run_pure {α : Type} (a : α) : (pure a : Run α) = ⟨[], .ok a⟩ := rfl

theorem run_bind {α β : Type} (m : Run α) (f : α → Run β) : (m >>= f) = Run.bind m f := rfl

theorem bind_ok {α β : Type} (t : List Event) (a : α) (f : α → Run β) :
    Run.bind ⟨t, .ok a⟩ f = ⟨t ++ (f a).trace, (f a).result⟩ := rfl

theorem bind_error {α β : Type} (t : List Event) (s : Stop) (f : α → Run β) :
    Run.bind (⟨t, .error s⟩ : Run α) f = ⟨t, .error s⟩ := rfl

/-- A run is determined by its trace and its result. -/
theorem run_eta {α : Type} (m : Run α) : m = ⟨m.trace, m.result⟩ := rfl

/-! ## Lemmas: the blocks of `GetDefaultConfig` -/

/-- The CA block without a CA path does nothing. -/
theorem caBlock_empty (w : World) (tls : TLSConfig) (c : Option TLSConf)
    (h : tls.CAPath = "") : caBlock w tls c = ⟨[], .ok c⟩ := by
  simp [caBlock, h, run_pure]

/-- The CA block when the CA file cannot be read. -/
theorem caBlock_unreadable (w : World) (tls : TLSConfig) (c : Option TLSConf) (err : String)
    (h : tls.CAPath ≠ "") (hr : w.ReadFile tls.CAPath = .error err) :
    caBlock w tls c = ⟨[.readFile tls.CAPath], .error (.unableToReadCA err)⟩ := by
  simp [caBlock, h, run_bind, osReadFile, act, bind_ok, hr, stop]

/-- The CA block when the pool accepts no certificate of the file. -/
theorem caBlock_rejected (w : World) (tls : TLSConfig) (c : Option TLSConf) (data : Bytes)
    (h : tls.CAPath ≠ "") (hr : w.ReadFile tls.CAPath = .ok data)
    (hp : w.pemCertificates data = []) :
    caBlock w tls c = ⟨[.readFile tls.CAPath], .error (.unableToAppendCA tls.CAPath)⟩ := by
  simp [caBlock, h, run_bind, osReadFile, act, bind_ok, hr, stop,
    CertPool.AppendCertsFromPEM, hp]

/-- The CA block when the file is read and holds a certificate. -/
theorem caBlock_loaded (w : World) (tls : TLSConfig) (c : Option TLSConf) (data : Bytes)
    (h : tls.CAPath ≠ "") (hr : w.ReadFile tls.CAPath = .ok data)
    (hp : w.pemCertificates data ≠ []) :
    caBlock w tls c = ⟨[.readFile tls.CAPath],
      .ok (some { RootCAs := some ((w.pemCertificates data).foldl CertPool.AddCert NewCertPool),
                  MinVersion := VersionTLS12, Certificates := [] })⟩ := by
  simp [caBlock, h, run_bind, osReadFile, act, bind_ok, hr, stop,
    CertPool.AppendCertsFromPEM, hp, run_pure]

/-- The key-pair block without a certificate and key path does nothing. -/
theorem keyPairBlock_empty (w : World) (tls : TLSConfig) (c : Option TLSConf)
    (hc : tls.CertPath = "") (hk : tls.KeyPath = "") :
    keyPairBlock w tls c = ⟨[], .ok c⟩ := by
  simp [keyPairBlock, hc, hk, run_pure]

/-- The key-pair block with exactly one of the two paths. -/
theorem keyPairBlock_half (w : World) (tls : TLSConfig) (c : Option TLSConf)
    (h : (tls.CertPath = "" ∧ tls.KeyPath ≠ "") ∨ (tls.CertPath ≠ "" ∧ tls.KeyPath = "")) :
    keyPairBlock w tls c = ⟨[], .error .certAndKeyBoth⟩ := by
  rcases h with ⟨hc, hk⟩ | ⟨hc, hk⟩ <;> simp [keyPairBlock, hc, hk, stop]

/-- The key-pair block when the pair fails to load. -/
theorem keyPairBlock_unloadable (w : World) (tls : TLSConfig) (c : Option TLSConf)
    (err : String) (hc : tls.CertPath ≠ "") (hk : tls.KeyPath ≠ "")
    (hl : w.LoadX509KeyPair tls.CertPath tls.KeyPath = .error err) :
    keyPairBlock w tls c = ⟨[.loadX509KeyPair tls.CertPath tls.KeyPath],
      .error (.unableToLoadKeyPair tls.CertPath tls.KeyPath err)⟩ := by
  simp [keyPairBlock, hc, hk, run_bind, tlsLoadX509KeyPair, act, bind_ok, hl, stop]

/-- The key-pair block when the pair loads. -/
theorem keyPairBlock_loaded (w : World) (tls : TLSConfig) (c : Option TLSConf)
    (cert : TLSCertificate) (hc : tls.CertPath ≠ "") (hk : tls.KeyPath ≠ "")
    (hl : w.LoadX509KeyPair tls.CertPath tls.KeyPath = .ok cert) :
    keyPairBlock w tls c = ⟨[.loadX509KeyPair tls.CertPath tls.KeyPath],
      .ok (some (match c with
        | none => { MinVersion := VersionTLS12, Certificates := [cert] }
        | some c => { c with Certificates := c.Certificates ++ [cert] }))⟩ := by
  cases c <;>
    simp [keyPairBlock, hc, hk, run_bind, tlsLoadX509KeyPair, act, bind_ok, hl, run_pure]

/-- The dialer block with TLS disabled. -/
theorem dialerBlock_disabled (w : World) (conf : KafkaConfig)
    (h : conf.Auth.TLS.Enabled = false) :
    dialerBlock w conf = ⟨[], .ok (.Dialer (.net { Timeout := 10 * Second }))⟩ := by
  simp [dialerBlock, h, run_pure]

/-- The dialer block with TLS enabled: the CA block, then the key-pair block,
then the TLS dialer around the resulting configuration. -/
theorem dialerBlock_enabled (w : World) (conf : KafkaConfig)
    (h : conf.Auth.TLS.Enabled = true) :
    dialerBlock w conf =
      Run.bind (caBlock w conf.Auth.TLS none) fun c0 =>
      Run.bind (keyPairBlock w conf.Auth.TLS c0) fun c1 =>
      ⟨[], .ok (.Dialer (.tls { NetDialer := { Timeout := 10 * Second }, Config := c1 }))⟩ := by
  simp [dialerBlock, h, run_bind, run_pure]

/-- The function `GetDefaultConfig` as the dialer block followed by the SASL block. -/
theorem GetDefaultConfig_eq (w : World) (g : Globals) (conf : KafkaConfig) :
    GetDefaultConfig w g conf =
      Run.bind (dialerBlock w conf) fun dialer =>
      Run.bind (saslBlock conf) fun sasl =>
      ⟨[], .ok [Opt.SeedBrokers conf.Brokers, Opt.WithLogger (newKLogger g.slogDefault),
        Opt.DefaultProduceTopic g.Conf.Kafka.Topic, dialer, sasl]⟩ := by
  simp [GetDefaultConfig, run_bind, run_pure]

/-- The SASL block causes no event. -/
theorem saslBlock_trace (conf : KafkaConfig) : (saslBlock conf).trace = [] := by
  unfold saslBlock
  split_ifs <;> rfl

/-- The SASL block, by the value of `Scram`. -/
theorem saslBlock_eq (conf : KafkaConfig) :
    saslBlock conf = ⟨[],
      if conf.Auth.Scram = 0 then
        .ok (.SASL ⟨.plain, conf.Auth.Username, conf.Auth.Password⟩)
      else if conf.Auth.Scram = 256 then
        .ok (.SASL ⟨.scramSha256, conf.Auth.Username, conf.Auth.Password⟩)
      else if conf.Auth.Scram = 512 then
        .ok (.SASL ⟨.scramSha512, conf.Auth.Username, conf.Auth.Password⟩)
      else .error (.invalidScram conf.Auth.Scram)⟩ := by
  unfold saslBlock
  split_ifs <;> first | rfl | omega

/-- When the dialer block stops, `GetDefaultConfig` stops there. -/
theorem GetDefaultConfig_of_dialer_error (w : World) (g : Globals) (conf : KafkaConfig)
    (s : Stop) (hd : (dialerBlock w conf).result = .error s) :
    GetDefaultConfig w g conf = ⟨(dialerBlock w conf).trace, .error s⟩ := by
  have e : dialerBlock w conf = ⟨(dialerBlock w conf).trace, .error s⟩ := by rw [← hd]
  rw [GetDefaultConfig_eq, e, bind_error]

/-- When the dialer block yields `d`, `GetDefaultConfig` goes on with the SASL
block and returns the five options, or stops in the SASL block. -/
theorem GetDefaultConfig_of_dialer_ok (w : World) (g : Globals) (conf : KafkaConfig)
    (d : Opt) (hd : (dialerBlock w conf).result = .ok d) :
    GetDefaultConfig w g conf = ⟨(dialerBlock w conf).trace,
      match (saslBlock conf).result with
      | .ok sasl => .ok [Opt.SeedBrokers conf.Brokers, Opt.WithLogger (newKLogger g.slogDefault),
          Opt.DefaultProduceTopic g.Conf.Kafka.Topic, d, sasl]
      | .error s => .error s⟩ := by
  have e : dialerBlock w conf = ⟨(dialerBlock w conf).trace, .ok d⟩ := by rw [← hd]
  rw [GetDefaultConfig_eq, e, bind_ok]
  cases hs : (saslBlock conf).result with
  | error s =>
    have e2 : saslBlock conf = ⟨[], .error s⟩ := by rw [← hs, ← saslBlock_trace conf]
    simp [e2, bind_error]
  | ok sasl =>
    have e2 : saslBlock conf = ⟨[], .ok sasl⟩ := by rw [← hs, ← saslBlock_trace conf]
    simp [e2, bind_ok]

/-- The events of `GetDefaultConfig` are those of its dialer block. -/
theorem GetDefaultConfig_trace (w : World) (g : Globals) (conf : KafkaConfig) :
    (GetDefaultConfig w g conf).trace = (dialerBlock w conf).trace := by
  cases hd : (dialerBlock w conf).result with
  | error s => rw [GetDefaultConfig_of_dialer_error w g conf s hd]
  | ok d => rw [GetDefaultConfig_of_dialer_ok w g conf d hd]

/-- When `GetDefaultConfig` returns, the dialer block returned, and its option
is the one dialer option of the list. -/
theorem GetDefaultConfig_dialer (w : World) (g : Globals) (conf : KafkaConfig)
    (opts : List Opt) (h : (GetDefaultConfig w g conf).result = .ok opts) (fn : DialFn)
    (hd : (dialerBlock w conf).result = .ok (.Dialer fn)) :
    dialersOf opts = [fn] := by
  rw [GetDefaultConfig_of_dialer_ok w g conf _ hd, saslBlock_eq] at h
  simp only at h
  split_ifs at h <;> cases h <;> simp [dialersOf]

/-- How the CA block can return, starting from a nil configuration: without a
CA path it leaves nil and reads nothing; with one, the file was read, holds a
certificate, and the configuration has the pool built from it. -/
theorem caBlock_ok (w : World) (tls : TLSConfig) (c0 : Option TLSConf)
    (h : (caBlock w tls none).result = .ok c0) :
    (tls.CAPath = "" ∧ c0 = none ∧ (caBlock w tls none).trace = []) ∨
    (tls.CAPath ≠ "" ∧ ∃ data, w.ReadFile tls.CAPath = .ok data ∧
      w.pemCertificates data ≠ [] ∧
      c0 = some { RootCAs := some ((w.pemCertificates data).foldl CertPool.AddCert NewCertPool),
                  MinVersion := VersionTLS12, Certificates := [] } ∧
      (caBlock w tls none).trace = [.readFile tls.CAPath]) := by
  by_cases hp : tls.CAPath = ""
  · left
    rw [caBlock_empty w tls none hp] at h ⊢
    exact ⟨hp, (Except.ok.inj h).symm, rfl⟩
  · right
    refine ⟨hp, ?_⟩
    cases hr : w.ReadFile tls.CAPath with
    | error err =>
      rw [caBlock_unreadable w tls none err hp hr] at h
      cases h
    | ok data =>
      by_cases hc : w.pemCertificates data = []
      · rw [caBlock_rejected w tls none data hp hr hc] at h
        cases h
      · rw [caBlock_loaded w tls none data hp hr hc] at h ⊢
        exact ⟨data, rfl, hc, (Except.ok.inj h).symm, rfl⟩

/-- The CA block loads no key pair. -/
theorem caBlock_no_key_pair (w : World) (tls : TLSConfig) (c : Option TLSConf)
    (certFile keyFile : String) :
    Event.loadX509KeyPair certFile keyFile ∉ (caBlock w tls c).trace := by
  by_cases hp : tls.CAPath = ""
  · simp [caBlock_empty w tls c hp]
  · cases hr : w.ReadFile tls.CAPath with
    | error err => simp [caBlock_unreadable w tls c err hp hr]
    | ok data =>
      by_cases hc : w.pemCertificates data = []
      · simp [caBlock_rejected w tls c data hp hr hc]
      · simp [caBlock_loaded w tls c data hp hr hc]

/-- The key-pair block reads no file with `os.ReadFile`. -/
theorem keyPairBlock_no_read (w : World) (tls : TLSConfig) (c : Option TLSConf)
    (path : String) : Event.readFile path ∉ (keyPairBlock w tls c).trace := by
  by_cases hc : tls.CertPath = "" <;> by_cases hk : tls.KeyPath = ""
  · simp [keyPairBlock_empty w tls c hc hk]
  · simp [keyPairBlock_half w tls c (Or.inl ⟨hc, hk⟩)]
  · simp [keyPairBlock_half w tls c (Or.inr ⟨hc, hk⟩)]
  · cases hl : w.LoadX509KeyPair tls.CertPath tls.KeyPath with
    | error err => simp [keyPairBlock_unloadable w tls c err hc hk hl]
    | ok cert => simp [keyPairBlock_loaded w tls c cert hc hk hl]

/-- With TLS enabled and the CA block returning `c0`, the dialer block is the
CA block's events followed by the key-pair block run on `c0`. -/
theorem dialerBlock_of_ca_ok (w : World) (conf : KafkaConfig) (c0 : Option TLSConf)
    (he : conf.Auth.TLS.Enabled = true)
    (hca : (caBlock w conf.Auth.TLS none).result = .ok c0) :
    dialerBlock w conf =
      ⟨(caBlock w conf.Auth.TLS none).trace ++ (keyPairBlock w conf.Auth.TLS c0).trace,
       match (keyPairBlock w conf.Auth.TLS c0).result with
       | .ok c1 => .ok (.Dialer (.tls { NetDialer := { Timeout := 10 * Second }, Config := c1 }))
       | .error s => .error s⟩ := by
  have e : caBlock w conf.Auth.TLS none = ⟨(caBlock w conf.Auth.TLS none).trace, .ok c0⟩ := by
    rw [← hca]
  rw [dialerBlock_enabled w conf he, e, bind_ok]
  cases hk : (keyPairBlock w conf.Auth.TLS c0).result with
  | error s => simp [Run.bind, hk]
  | ok c1 => simp [Run.bind, hk]

/-- With TLS enabled and the CA block stopping, the dialer block stops there. -/
theorem dialerBlock_of_ca_error (w : World) (conf : KafkaConfig) (s : Stop)
    (he : conf.Auth.TLS.Enabled = true)
    (hca : (caBlock w conf.Auth.TLS none).result = .error s) :
    dialerBlock w conf = ⟨(caBlock w conf.Auth.TLS none).trace, .error s⟩ := by
  have e : caBlock w conf.Auth.TLS none = ⟨(caBlock w conf.Auth.TLS none).trace, .error s⟩ := by
    rw [← hca]
  rw [dialerBlock_enabled w conf he, e, bind_error]

/-! ## Lemmas: `InitConfig` and `main` -/

/-- What `InitConfig` returns: the configuration it read, and the process-wide
variables with `Conf` set to it. Its events are none of the server's. -/
theorem InitConfig_ok (w : World) (g : Globals) (c : Config) (g1 : Globals)
    (h : (InitConfig w g).result = .ok (c, g1)) :
    g1 = { g with Conf := c } ∧
    ∀ e ∈ (InitConfig w g).trace, e ≠ .listenAndServe ∧ ∀ addr, e ≠ .newServer addr := by
  unfold InitConfig at h ⊢
  simp only [run_bind, run_pure, act, stop, bind_ok] at h ⊢
  by_cases hf : w.Getenv "CONFIG_FILE" = ""
  · simp only [hf, if_true] at h ⊢
    cases hw : w.Getwd with
    | error err =>
      simp only [hw, bind_error, bind_ok] at h
      cases h
    | ok wd =>
      simp only [hw, bind_ok] at h ⊢
      cases hrc : w.ReadConfig (wd ++ "/conf-" ++ w.ToLower w.profileCurrent ++ ".yaml") with
      | error err =>
        simp only [hrc, bind_error, bind_ok] at h
        cases h
      | ok c1 =>
        simp only [hrc] at h ⊢
        cases h
        simp
  · simp only [hf, if_false, bind_ok] at h ⊢
    cases hrc : w.ReadConfig (w.Getenv "CONFIG_FILE") with
    | error err =>
      simp only [hrc, bind_error, bind_ok] at h
      cases h
    | ok c1 =>
      simp only [hrc] at h ⊢
      cases h
      simp

/-- The events of the dialer block are file reads and key-pair loads. -/
theorem dialerBlock_events (w : World) (conf : KafkaConfig) :
    ∀ e ∈ (dialerBlock w conf).trace,
      e = .readFile conf.Auth.TLS.CAPath ∨
      e = .loadX509KeyPair conf.Auth.TLS.CertPath conf.Auth.TLS.KeyPath := by
  by_cases he : conf.Auth.TLS.Enabled = true
  · have hca : ∀ e ∈ (caBlock w conf.Auth.TLS none).trace,
        e = .readFile conf.Auth.TLS.CAPath := by
      by_cases hp : conf.Auth.TLS.CAPath = ""
      · simp [caBlock_empty w conf.Auth.TLS none hp]
      · cases hr : w.ReadFile conf.Auth.TLS.CAPath with
        | error err => simp [caBlock_unreadable w conf.Auth.TLS none err hp hr]
        | ok data =>
          by_cases hc : w.pemCertificates data = []
          · simp [caBlock_rejected w conf.Auth.TLS none data hp hr hc]
          · simp [caBlock_loaded w conf.Auth.TLS none data hp hr hc]
    have hkp : ∀ c0, ∀ e ∈ (keyPairBlock w conf.Auth.TLS c0).trace,
        e = .loadX509KeyPair conf.Auth.TLS.CertPath conf.Auth.TLS.KeyPath := by
      intro c0
      by_cases hc : conf.Auth.TLS.CertPath = "" <;> by_cases hk : conf.Auth.TLS.KeyPath = ""
      · simp [keyPairBlock_empty w conf.Auth.TLS c0 hc hk]
      · simp [keyPairBlock_half w conf.Auth.TLS c0 (Or.inl ⟨hc, hk⟩)]
      · simp [keyPairBlock_half w conf.Auth.TLS c0 (Or.inr ⟨hc, hk⟩)]
      · cases hl : w.LoadX509KeyPair conf.Auth.TLS.CertPath conf.Auth.TLS.KeyPath with
        | error err => simp [keyPairBlock_unloadable w conf.Auth.TLS c0 err hc hk hl]
        | ok cert => simp [keyPairBlock_loaded w conf.Auth.TLS c0 cert hc hk hl]
    cases hr : (caBlock w conf.Auth.TLS none).result with
    | error s =>
      rw [dialerBlock_of_ca_error w conf s he hr]
      intro e hmem
      exact Or.inl (hca e hmem)
    | ok c0 =>
      rw [dialerBlock_of_ca_ok w conf c0 he hr]
      intro e hmem
      rcases List.mem_append.mp hmem with h1 | h2
      · exact Or.inl (hca e h1)
      · exact Or.inr (hkp c0 e h2)
  · rw [dialerBlock_disabled w conf (by simpa using he)]
    simp

/-- When `InitConfig` returns `c` and `GetDefaultConfig` then stops on `c.Kafka`,
`main` stops there, after the events of the two. -/
theorem main_of_GetDefaultConfig_error (w : World) (g0 : Globals) (c : Config)
    (g1 : Globals) (s : Stop) (hi : (InitConfig w g0).result = .ok (c, g1))
    (hs : (dialerBlock w c.Kafka).result = .error s) :
    main w g0 = ⟨(InitConfig w g0).trace ++ (dialerBlock w c.Kafka).trace, .error s⟩ := by
  have hg := (InitConfig_ok w g0 c g1 hi).1
  have e : InitConfig w g0 = ⟨(InitConfig w g0).trace, .ok (c, g1)⟩ := by rw [← hi]
  subst hg
  unfold main
  simp only [run_bind]
  rw [e, bind_ok]
  simp only [GetDefaultConfig_of_dialer_error w _ c.Kafka s hs, bind_error]

/-! ## Theorems: `GetDefaultConfig` -/

/-- C3. For every KafkaConfig whose TLS stage does not fail, `GetDefaultConfig`
selects the SASL mechanism from `Auth.Scram` alone: 0 gives plain, 256 gives
SCRAM-SHA-256, 512 gives SCRAM-SHA-512, each built from `Auth.Username` and
`Auth.Password`, and the returned option list holds exactly one SASL option; for
every other value of `Scram` it panics and returns no option list. -/
theorem sasl_selected_by_scram (w : World) (g : Globals) (conf : KafkaConfig) (d : Opt)
    (hd : (dialerBlock w conf).result = .ok d) :
    (conf.Auth.Scram = 0 → ∃ opts, (GetDefaultConfig w g conf).result = .ok opts ∧
      saslOf opts = [⟨.plain, conf.Auth.Username, conf.Auth.Password⟩]) ∧
    (conf.Auth.Scram = 256 → ∃ opts, (GetDefaultConfig w g conf).result = .ok opts ∧
      saslOf opts = [⟨.scramSha256, conf.Auth.Username, conf.Auth.Password⟩]) ∧
    (conf.Auth.Scram = 512 → ∃ opts, (GetDefaultConfig w g conf).result = .ok opts ∧
      saslOf opts = [⟨.scramSha512, conf.Auth.Username, conf.Auth.Password⟩]) ∧
    (conf.Auth.Scram ≠ 0 → conf.Auth.Scram ≠ 256 → conf.Auth.Scram ≠ 512 →
      (GetDefaultConfig w g conf).result = .error (.invalidScram conf.Auth.Scram)) := by
  have hdial : ∃ fn, d = .Dialer fn := by
    by_cases he : conf.Auth.TLS.Enabled = true
    · rw [dialerBlock_enabled w conf he] at hd
      simp only [Run.bind] at hd
      split at hd
      · cases hd
      · split at hd
        · cases hd
        · exact ⟨_, (Except.ok.inj hd).symm⟩
    · rw [dialerBlock_disabled w conf (by simpa using he)] at hd
      exact ⟨_, (Except.ok.inj hd).symm⟩
  obtain ⟨fn, rfl⟩ := hdial
  have key : ∀ m, (saslBlock conf).result = .ok (.SASL m) →
      ∃ opts, (GetDefaultConfig w g conf).result = .ok opts ∧ saslOf opts = [m] := by
    intro m hm
    rw [GetDefaultConfig_of_dialer_ok w g conf _ hd, hm]
    exact ⟨_, rfl, by simp [saslOf]⟩
  refine ⟨?_, ?_, ?_, ?_⟩
  · intro h
    exact key _ (by simp [saslBlock_eq, h])
  · intro h
    exact key _ (by simp [saslBlock_eq, h])
  · intro h
    exact key _ (by simp [saslBlock_eq, h])
  · intro h0 h1 h2
    rw [GetDefaultConfig_of_dialer_ok w g conf _ hd, saslBlock_eq]
    simp [h0, h1, h2]

/-- C3 at a configuration with TLS disabled: `Scram` 256 selects SCRAM-SHA-256
and `Scram` 128 panics. -/
theorem sasl_selected_by_scram_witness :
    (∃ opts, (GetDefaultConfig (sampleWorld {}) sampleGlobals
        (sampleConf false "" "" "" 256)).result = .ok opts ∧
      saslOf opts = [⟨.scramSha256, "user", "secret"⟩]) ∧
    (GetDefaultConfig (sampleWorld {}) sampleGlobals (sampleConf false "" "" "" 128)).result
      = .error (.invalidScram 128) :=
  ⟨(sasl_selected_by_scram (sampleWorld {}) sampleGlobals (sampleConf false "" "" "" 256)
      (.Dialer (.net { Timeout := 10 * Second })) rfl).2.1 rfl,
   (sasl_selected_by_scram (sampleWorld {}) sampleGlobals (sampleConf false "" "" "" 128)
      (.Dialer (.net { Timeout := 10 * Second })) rfl).2.2.2
      (by decide) (by decide) (by decide)⟩

/-- C4. For every KafkaConfig with `Auth.TLS.Enabled` whose CA stage does not
fail: if exactly one of `CertPath` and `KeyPath` is non-empty,
`GetDefaultConfig` panics without attempting to load a key pair; if both are
empty, the TLS configuration given to the dialer carries no client certificate
and no key pair is loaded; if both are non-empty and the pair loads, the TLS
configuration carries exactly one client certificate, the loaded pair; and if
the pair fails to load, `GetDefaultConfig` panics. -/
theorem key_pair_stage (w : World) (g : Globals) (conf : KafkaConfig) (c0 : Option TLSConf)
    (he : conf.Auth.TLS.Enabled = true)
    (hca : (caBlock w conf.Auth.TLS none).result = .ok c0) :
    (((conf.Auth.TLS.CertPath = "" ∧ conf.Auth.TLS.KeyPath ≠ "") ∨
      (conf.Auth.TLS.CertPath ≠ "" ∧ conf.Auth.TLS.KeyPath = "")) →
      (GetDefaultConfig w g conf).result = .error .certAndKeyBoth ∧
      ∀ certFile keyFile,
        Event.loadX509KeyPair certFile keyFile ∉ (GetDefaultConfig w g conf).trace) ∧
    (conf.Auth.TLS.CertPath = "" → conf.Auth.TLS.KeyPath = "" →
      (dialerBlock w conf).result =
        .ok (.Dialer (.tls { NetDialer := { Timeout := 10 * Second }, Config := c0 })) ∧
      (∀ c, c0 = some c → c.Certificates = []) ∧
      (∀ certFile keyFile,
        Event.loadX509KeyPair certFile keyFile ∉ (GetDefaultConfig w g conf).trace) ∧
      (∀ opts, (GetDefaultConfig w g conf).result = .ok opts → dialersOf opts =
        [.tls { NetDialer := { Timeout := 10 * Second }, Config := c0 }])) ∧
    (∀ cert, conf.Auth.TLS.CertPath ≠ "" → conf.Auth.TLS.KeyPath ≠ "" →
      w.LoadX509KeyPair conf.Auth.TLS.CertPath conf.Auth.TLS.KeyPath = .ok cert →
      ∃ c, c.Certificates = [cert] ∧
        (dialerBlock w conf).result =
          .ok (.Dialer (.tls { NetDialer := { Timeout := 10 * Second }, Config := some c })) ∧
        (∀ opts, (GetDefaultConfig w g conf).result = .ok opts → dialersOf opts =
          [.tls { NetDialer := { Timeout := 10 * Second }, Config := some c }])) ∧
    (∀ err, conf.Auth.TLS.CertPath ≠ "" → conf.Auth.TLS.KeyPath ≠ "" →
      w.LoadX509KeyPair conf.Auth.TLS.CertPath conf.Auth.TLS.KeyPath = .error err →
      (GetDefaultConfig w g conf).result =
        .error (.unableToLoadKeyPair conf.Auth.TLS.CertPath conf.Auth.TLS.KeyPath err)) := by
  have hdb := dialerBlock_of_ca_ok w conf c0 he hca
  have hc0 : ∀ c, c0 = some c → c.Certificates = [] := by
    intro c hc
    rcases caBlock_ok w conf.Auth.TLS c0 hca with ⟨_, h0, _⟩ | ⟨_, data, _, _, h0, _⟩
    · rw [h0] at hc
      cases hc
    · rw [h0] at hc
      cases hc
      rfl
  refine ⟨?_, ?_, ?_, ?_⟩
  · intro h
    have hk := keyPairBlock_half w conf.Auth.TLS c0 h
    rw [hk] at hdb
    have hr : (dialerBlock w conf).result = .error .certAndKeyBoth := by rw [hdb]
    refine ⟨by rw [GetDefaultConfig_of_dialer_error w g conf _ hr], ?_⟩
    intro certFile keyFile
    rw [GetDefaultConfig_trace, hdb]
    simpa using caBlock_no_key_pair w conf.Auth.TLS none certFile keyFile
  · intro hc hk
    have hkb := keyPairBlock_empty w conf.Auth.TLS c0 hc hk
    rw [hkb] at hdb
    have hr : (dialerBlock w conf).result =
        .ok (.Dialer (.tls { NetDialer := { Timeout := 10 * Second }, Config := c0 })) := by
      rw [hdb]
    refine ⟨hr, hc0, ?_, ?_⟩
    · intro certFile keyFile
      rw [GetDefaultConfig_trace, hdb]
      simpa using caBlock_no_key_pair w conf.Auth.TLS none certFile keyFile
    · intro opts ho
      exact GetDefaultConfig_dialer w g conf opts ho _ hr
  · intro cert hc hk hl
    have hkb := keyPairBlock_loaded w conf.Auth.TLS c0 cert hc hk hl
    rw [hkb] at hdb
    refine ⟨_, ?_, by rw [hdb], ?_⟩
    · cases c0 with
      | none => rfl
      | some c => simp [hc0 c rfl]
    · intro opts ho
      exact GetDefaultConfig_dialer w g conf opts ho _ (by rw [hdb])
  · intro err hc hk hl
    have hkb := keyPairBlock_unloadable w conf.Auth.TLS c0 err hc hk hl
    rw [hkb] at hdb
    have hr : (dialerBlock w conf).result =
        .error (.unableToLoadKeyPair conf.Auth.TLS.CertPath conf.Auth.TLS.KeyPath err) := by
      rw [hdb]
    rw [GetDefaultConfig_of_dialer_error w g conf _ hr]

/-- C4 at TLS-enabled configurations without a CA path: only a key path
panics, the pair `cert.pem`, `key.pem` gives one client certificate, and a
missing pair panics. -/
theorem key_pair_stage_witness :
    (GetDefaultConfig (sampleWorld {}) sampleGlobals (sampleConf true "" "" "key.pem" 0)).result
      = .error .certAndKeyBoth ∧
    (∃ c, c.Certificates = [⟨1⟩] ∧
      (dialerBlock (sampleWorld {}) (sampleConf true "" "cert.pem" "key.pem" 0)).result =
        .ok (.Dialer (.tls { NetDialer := { Timeout := 10 * Second }, Config := some c }))) ∧
    (GetDefaultConfig (sampleWorld {}) sampleGlobals (sampleConf true "" "c.pem" "k.pem" 0)).result
      = .error (.unableToLoadKeyPair "c.pem" "k.pem" "no such file") :=
  ⟨((key_pair_stage (sampleWorld {}) sampleGlobals (sampleConf true "" "" "key.pem" 0) none
      rfl rfl).1 (Or.inl ⟨rfl, by decide⟩)).1,
   (fun ⟨c, h1, h2, _⟩ => ⟨c, h1, h2⟩)
    ((key_pair_stage (sampleWorld {}) sampleGlobals (sampleConf true "" "cert.pem" "key.pem" 0)
      none rfl rfl).2.2.1 ⟨1⟩ (by decide) (by decide) rfl),
   (key_pair_stage (sampleWorld {}) sampleGlobals (sampleConf true "" "c.pem" "k.pem" 0) none
      rfl rfl).2.2.2 "no such file" (by decide) (by decide) rfl⟩

/-- C7. For every KafkaConfig with `Auth.TLS.Enabled = false`, whatever
`CAPath`, `CertPath` and `KeyPath` are, `GetDefaultConfig` reads no file, does
not fail in the transport stage (the only stop left is the SASL one), and adds
exactly one dialer option: a plain dialer with a 10-second timeout. -/
theorem tls_disabled_plain_dialer (w : World) (g : Globals) (conf : KafkaConfig)
    (he : conf.Auth.TLS.Enabled = false) :
    (GetDefaultConfig w g conf).trace = [] ∧
    dialerBlock w conf = ⟨[], .ok (.Dialer (.net { Timeout := 10 * Second }))⟩ ∧
    (∀ s, (GetDefaultConfig w g conf).result = .error s →
      s = .invalidScram conf.Auth.Scram) ∧
    (∀ opts, (GetDefaultConfig w g conf).result = .ok opts →
      dialersOf opts = [.net { Timeout := 10 * Second }]) ∧
    10 * Second = 10000000000 := by
  have hdb := dialerBlock_disabled w conf he
  have hr : (dialerBlock w conf).result =
      .ok (.Dialer (.net { Timeout := 10 * Second })) := by rw [hdb]
  refine ⟨by rw [GetDefaultConfig_trace, hdb], hdb, ?_, ?_, by decide⟩
  · intro s hs
    rw [GetDefaultConfig_of_dialer_ok w g conf _ hr, saslBlock_eq] at hs
    simp only at hs
    split_ifs at hs
    all_goals cases hs
    rfl
  · intro opts ho
    exact GetDefaultConfig_dialer w g conf opts ho _ hr

/-- C7 at a configuration with TLS disabled and all three paths set, the key
pair being one that does not exist. -/
theorem tls_disabled_plain_dialer_witness :
    (GetDefaultConfig (sampleWorld {}) sampleGlobals
      (sampleConf false "junk.pem" "c.pem" "k.pem" 0)).trace = [] ∧
    dialerBlock (sampleWorld {}) (sampleConf false "junk.pem" "c.pem" "k.pem" 0) =
      ⟨[], .ok (.Dialer (.net { Timeout := 10 * Second }))⟩ :=
  ⟨(tls_disabled_plain_dialer (sampleWorld {}) sampleGlobals
      (sampleConf false "junk.pem" "c.pem" "k.pem" 0) rfl).1,
   (tls_disabled_plain_dialer (sampleWorld {}) sampleGlobals
      (sampleConf false "junk.pem" "c.pem" "k.pem" 0) rfl).2.1⟩

/-- With TLS enabled, the configuration of the TLS dialer is nil exactly when
`CAPath`, `CertPath` and `KeyPath` are all empty, and a configuration that is
not nil has the minimum version TLS 1.2. -/
theorem tls_config_min_version (w : World) (conf : KafkaConfig) (d : TLSDialer)
    (he : conf.Auth.TLS.Enabled = true)
    (hd : (dialerBlock w conf).result = .ok (.Dialer (.tls d))) :
    (d.Config = none ↔ (conf.Auth.TLS.CAPath = "" ∧ conf.Auth.TLS.CertPath = "" ∧
      conf.Auth.TLS.KeyPath = "")) ∧
    (∀ c, d.Config = some c → c.MinVersion = VersionTLS12) := by
  cases hca : (caBlock w conf.Auth.TLS none).result with
  | error s =>
    rw [dialerBlock_of_ca_error w conf s he hca] at hd
    cases hd
  | ok c0 =>
    rw [dialerBlock_of_ca_ok w conf c0 he hca] at hd
    have hc0 := caBlock_ok w conf.Auth.TLS c0 hca
    by_cases hc : conf.Auth.TLS.CertPath = "" <;> by_cases hk : conf.Auth.TLS.KeyPath = ""
    · rw [keyPairBlock_empty w conf.Auth.TLS c0 hc hk] at hd
      cases hd
      rcases hc0 with ⟨hp, h0, _⟩ | ⟨hp, data, _, _, h0, _⟩
      · subst h0
        simp [hp, hc, hk]
      · subst h0
        simp [hp]
    · rw [keyPairBlock_half w conf.Auth.TLS c0 (Or.inl ⟨hc, hk⟩)] at hd
      cases hd
    · rw [keyPairBlock_half w conf.Auth.TLS c0 (Or.inr ⟨hc, hk⟩)] at hd
      cases hd
    · cases hl : w.LoadX509KeyPair conf.Auth.TLS.CertPath conf.Auth.TLS.KeyPath with
      | error err =>
        rw [keyPairBlock_unloadable w conf.Auth.TLS c0 err hc hk hl] at hd
        cases hd
      | ok cert =>
        rw [keyPairBlock_loaded w conf.Auth.TLS c0 cert hc hk hl] at hd
        cases hd
        rcases hc0 with ⟨hp, h0, _⟩ | ⟨hp, data, _, _, h0, _⟩
        · subst h0
          simp [hc]
        · subst h0
          simp [hc]

/-- The option list `GetDefaultConfig` returns takes its seed brokers, dialer
and SASL mechanism from `conf` and the world, and its default produce topic
from the process-wide `config.Conf`. -/
theorem GetDefaultConfig_components (w : World) (g : Globals) (conf : KafkaConfig)
    (opts : List Opt) (h : (GetDefaultConfig w g conf).result = .ok opts) :
    seedBrokersOf opts = [conf.Brokers] ∧
    produceTopicsOf opts = [g.Conf.Kafka.Topic] ∧
    (∃ fn m, (dialerBlock w conf).result = .ok (.Dialer fn) ∧
      (saslBlock conf).result = .ok (.SASL m) ∧ dialersOf opts = [fn] ∧ saslOf opts = [m]) := by
  cases hd : (dialerBlock w conf).result with
  | error s =>
    rw [GetDefaultConfig_of_dialer_error w g conf s hd] at h
    cases h
  | ok d =>
    have hfn : ∃ fn, d = .Dialer fn := by
      by_cases he : conf.Auth.TLS.Enabled = true
      · rw [dialerBlock_enabled w conf he] at hd
        simp only [Run.bind] at hd
        split at hd
        · cases hd
        · split at hd
          · cases hd
          · exact ⟨_, (Except.ok.inj hd).symm⟩
      · rw [dialerBlock_disabled w conf (by simpa using he)] at hd
        exact ⟨_, (Except.ok.inj hd).symm⟩
    obtain ⟨fn, rfl⟩ := hfn
    rw [GetDefaultConfig_of_dialer_ok w g conf _ hd, saslBlock_eq] at h
    rw [saslBlock_eq]
    simp only at h ⊢
    split_ifs at h ⊢ <;>
      (cases h
       exact ⟨by simp [seedBrokersOf], by simp [produceTopicsOf],
        ⟨_, _, rfl, rfl, by simp [dialersOf], by simp [saslOf]⟩⟩)

/-- With TLS enabled, the option of the dialer block is a TLS dialer with a
10-second timeout. -/
theorem dialerBlock_enabled_tls (w : World) (conf : KafkaConfig) (fn : DialFn)
    (he : conf.Auth.TLS.Enabled = true)
    (hd : (dialerBlock w conf).result = .ok (.Dialer fn)) :
    ∃ d, fn = .tls d ∧ d.NetDialer = { Timeout := 10 * Second } := by
  cases hca : (caBlock w conf.Auth.TLS none).result with
  | error s =>
    rw [dialerBlock_of_ca_error w conf s he hca] at hd
    cases hd
  | ok c0 =>
    rw [dialerBlock_of_ca_ok w conf c0 he hca] at hd
    cases hk : (keyPairBlock w conf.Auth.TLS c0).result with
    | error s =>
      rw [hk] at hd
      cases hd
    | ok c1 =>
      rw [hk] at hd
      cases hd
      exact ⟨_, rfl, rfl⟩

/-- C6 as stated fails. At a configuration with TLS enabled and `CAPath`,
`CertPath`, `KeyPath` all empty, `GetDefaultConfig` returns and the TLS dialer
it adds has a nil configuration: there is no configuration on which a minimum
version is set. -/
theorem tls_config_nil_without_paths :
    ∃ opts, (GetDefaultConfig (sampleWorld {}) sampleGlobals
        (sampleConf true "" "" "" 0)).result = .ok opts ∧
      dialersOf opts = [.tls { NetDialer := { Timeout := 10 * Second }, Config := none }] ∧
      ¬ ∃ d c, dialersOf opts = [.tls d] ∧ d.Config = some c ∧
        c.MinVersion = VersionTLS12 := by
  refine ⟨_, rfl, rfl, ?_⟩
  rintro ⟨d, c, h1, h2, _⟩
  have h3 : ([.tls { NetDialer := { Timeout := 10 * Second }, Config := none }] :
      List DialFn) = [.tls d] := h1
  cases h3
  cases h2

/-- C6, amended. For every KafkaConfig with `Auth.TLS.Enabled` on which
`GetDefaultConfig` returns, the one dialer option is a TLS dialer with a
10-second timeout; its configuration is nil exactly when `CAPath`, `CertPath`
and `KeyPath` are all empty, and a configuration that is not nil has its
minimum version set to TLS 1.2; in both cases the minimum version that
`crypto/tls` applies to the client connection is TLS 1.2. -/
theorem tls_min_version_effective (w : World) (g : Globals) (conf : KafkaConfig)
    (opts : List Opt) (he : conf.Auth.TLS.Enabled = true)
    (h : (GetDefaultConfig w g conf).result = .ok opts) :
    ∃ d, dialersOf opts = [.tls d] ∧ d.NetDialer = { Timeout := 10 * Second } ∧
      (d.Config = none ↔ (conf.Auth.TLS.CAPath = "" ∧ conf.Auth.TLS.CertPath = "" ∧
        conf.Auth.TLS.KeyPath = "")) ∧
      (∀ c, d.Config = some c → c.MinVersion = VersionTLS12) ∧
      clientMinVersion d.Config = VersionTLS12 := by
  obtain ⟨_, _, fn, m, hd, _, hfn, _⟩ := GetDefaultConfig_components w g conf opts h
  obtain ⟨d, rfl, hnd⟩ := dialerBlock_enabled_tls w conf fn he hd
  obtain ⟨hnil, hmin⟩ := tls_config_min_version w conf d he hd
  refine ⟨d, hfn, hnd, hnil, hmin, ?_⟩
  cases hc : d.Config with
  | none => rfl
  | some c =>
    have h12 := hmin c hc
    simp [clientMinVersion, effectiveConfig, h12, VersionTLS12]

/-- C6, amended, at two TLS-enabled configurations: without any path the
configuration is nil, with the CA file `ca.pem` it is not, and the client
minimum is TLS 1.2 in both. -/
theorem tls_min_version_effective_witness :
    (∃ opts d, (GetDefaultConfig (sampleWorld {}) sampleGlobals
        (sampleConf true "" "" "" 0)).result = .ok opts ∧
      dialersOf opts = [.tls d] ∧ d.Config = none ∧
      clientMinVersion d.Config = VersionTLS12) ∧
    (∃ opts d, (GetDefaultConfig (sampleWorld {}) sampleGlobals
        (sampleConf true "ca.pem" "" "" 0)).result = .ok opts ∧
      dialersOf opts = [.tls d] ∧ d.Config ≠ none ∧
      clientMinVersion d.Config = VersionTLS12) :=
  ⟨(fun ⟨d, h1, _, h3, _, h5⟩ => ⟨_, d, rfl, h1, h3.mpr ⟨rfl, rfl, rfl⟩, h5⟩)
    (tls_min_version_effective (sampleWorld {}) sampleGlobals (sampleConf true "" "" "" 0)
      _ rfl rfl),
   (fun ⟨d, h1, _, h3, _, h5⟩ => ⟨_, d, rfl, h1,
      fun hn => absurd (h3.mp hn).1 (by decide), h5⟩)
    (tls_min_version_effective (sampleWorld {}) sampleGlobals
      (sampleConf true "ca.pem" "" "" 0) _ rfl rfl)⟩

/-- C5, at a configuration with topic `events` built under two values of
`config.Conf`, the zero value and one with topic `other`: both builds return,
and their default produce topics are the empty topic and `other`; they differ
from each other and from the topic of the configuration passed in. -/
theorem default_topic_read_from_global :
    ∃ opts1 opts2,
      (GetDefaultConfig (sampleWorld {}) { Conf := {}, slogDefault := thresholdLogger 0 }
        (sampleConf false "" "" "" 0)).result = .ok opts1 ∧
      (GetDefaultConfig (sampleWorld {})
        { Conf := { Kafka := { Topic := "other" } }, slogDefault := thresholdLogger 0 }
        (sampleConf false "" "" "" 0)).result = .ok opts2 ∧
      (sampleConf false "" "" "" 0).Topic = "events" ∧
      produceTopicsOf opts1 = [""] ∧ produceTopicsOf opts2 = ["other"] :=
  ⟨_, _, rfl, rfl, rfl, rfl, rfl⟩

/-- Folding `AddCert` over a list, from the empty pool, gives a pool that holds
exactly the certificates of the list. -/
theorem mem_foldl_AddCert (l : List X509Certificate) (s : CertPool) (x : X509Certificate) :
    x ∈ (l.foldl CertPool.AddCert s).certs ↔ x ∈ s.certs ∨ x ∈ l := by
  induction l generalizing s with
  | nil => simp
  | cons a l ih =>
    rw [List.foldl_cons, ih]
    unfold CertPool.AddCert
    split_ifs with ha
    · constructor
      · rintro (h | h)
        · exact Or.inl h
        · exact Or.inr (List.mem_cons_of_mem _ h)
      · rintro (h | h)
        · exact Or.inl h
        · rcases List.mem_cons.mp h with rfl | h
          · exact Or.inl ha
          · exact Or.inr h
    · simp only [List.mem_append, List.mem_singleton, List.mem_cons]
      tauto

/-- C8. For every KafkaConfig with `Auth.TLS.Enabled`: with a non-empty
`CAPath`, `GetDefaultConfig` panics when the file cannot be read or when the
pool accepts no certificate of its contents, and otherwise the root pool of the
TLS configuration is a new pool holding exactly the certificates parsed from
the file; with an empty `CAPath`, no CA file is read and the root pool is left
unset. In `main`, a failure of the CA stage stops the program before the HTTP
server is created and before the listener is started. -/
theorem ca_stage (w : World) (g : Globals) (conf : KafkaConfig)
    (he : conf.Auth.TLS.Enabled = true) :
    (∀ err, conf.Auth.TLS.CAPath ≠ "" → w.ReadFile conf.Auth.TLS.CAPath = .error err →
      (caBlock w conf.Auth.TLS none).result = .error (.unableToReadCA err) ∧
      (GetDefaultConfig w g conf).result = .error (.unableToReadCA err)) ∧
    (∀ data, conf.Auth.TLS.CAPath ≠ "" → w.ReadFile conf.Auth.TLS.CAPath = .ok data →
      w.pemCertificates data = [] →
      (caBlock w conf.Auth.TLS none).result = .error (.unableToAppendCA conf.Auth.TLS.CAPath) ∧
      (GetDefaultConfig w g conf).result = .error (.unableToAppendCA conf.Auth.TLS.CAPath)) ∧
    (∀ data, conf.Auth.TLS.CAPath ≠ "" → w.ReadFile conf.Auth.TLS.CAPath = .ok data →
      w.pemCertificates data ≠ [] →
      ∃ pool, (∀ x, x ∈ pool.certs ↔ x ∈ w.pemCertificates data) ∧
        (caBlock w conf.Auth.TLS none).result =
          .ok (some { RootCAs := some pool, MinVersion := VersionTLS12, Certificates := [] }) ∧
        (∀ d, (dialerBlock w conf).result = .ok (.Dialer (.tls d)) →
          ∃ c, d.Config = some c ∧ c.RootCAs = some pool)) ∧
    (conf.Auth.TLS.CAPath = "" →
      (∀ path, Event.readFile path ∉ (GetDefaultConfig w g conf).trace) ∧
      (∀ d, (dialerBlock w conf).result = .ok (.Dialer (.tls d)) →
        ∀ c, d.Config = some c → c.RootCAs = none)) ∧
    (∀ g0 c g1 s, (InitConfig w g0).result = .ok (c, g1) → c.Kafka = conf →
      (caBlock w conf.Auth.TLS none).result = .error s →
      (main w g0).result = .error s ∧
      ∀ e ∈ (main w g0).trace, e ≠ .listenAndServe ∧ ∀ addr, e ≠ .newServer addr) := by
  -- the dialer option, once the CA block has returned `c0`
  have hdial : ∀ c0, (caBlock w conf.Auth.TLS none).result = .ok c0 →
      ∀ d, (dialerBlock w conf).result = .ok (.Dialer (.tls d)) →
        d.Config = c0 ∨ ∃ cert, d.Config = some (match c0 with
          | none => { MinVersion := VersionTLS12, Certificates := [cert] }
          | some c => { c with Certificates := c.Certificates ++ [cert] }) := by
    intro c0 hca d hd
    rw [dialerBlock_of_ca_ok w conf c0 he hca] at hd
    by_cases hc : conf.Auth.TLS.CertPath = "" <;> by_cases hk : conf.Auth.TLS.KeyPath = ""
    · rw [keyPairBlock_empty w conf.Auth.TLS c0 hc hk] at hd
      cases hd
      exact Or.inl rfl
    · rw [keyPairBlock_half w conf.Auth.TLS c0 (Or.inl ⟨hc, hk⟩)] at hd
      cases hd
    · rw [keyPairBlock_half w conf.Auth.TLS c0 (Or.inr ⟨hc, hk⟩)] at hd
      cases hd
    · cases hl : w.LoadX509KeyPair conf.Auth.TLS.CertPath conf.Auth.TLS.KeyPath with
      | error err =>
        rw [keyPairBlock_unloadable w conf.Auth.TLS c0 err hc hk hl] at hd
        cases hd
      | ok cert =>
        rw [keyPairBlock_loaded w conf.Auth.TLS c0 cert hc hk hl] at hd
        cases hd
        cases c0 <;> exact Or.inr ⟨cert, rfl⟩
  refine ⟨?_, ?_, ?_, ?_, ?_⟩
  · intro err hp hr
    have hca : (caBlock w conf.Auth.TLS none).result = .error (.unableToReadCA err) := by
      rw [caBlock_unreadable w conf.Auth.TLS none err hp hr]
    refine ⟨hca, ?_⟩
    have hd : (dialerBlock w conf).result = .error (.unableToReadCA err) := by
      rw [dialerBlock_of_ca_error w conf _ he hca]
    rw [GetDefaultConfig_of_dialer_error w g conf _ hd]
  · intro data hp hr hc
    have hca : (caBlock w conf.Auth.TLS none).result =
        .error (.unableToAppendCA conf.Auth.TLS.CAPath) := by
      rw [caBlock_rejected w conf.Auth.TLS none data hp hr hc]
    refine ⟨hca, ?_⟩
    have hd : (dialerBlock w conf).result =
        .error (.unableToAppendCA conf.Auth.TLS.CAPath) := by
      rw [dialerBlock_of_ca_error w conf _ he hca]
    rw [GetDefaultConfig_of_dialer_error w g conf _ hd]
  · intro data hp hr hc
    have hca : (caBlock w conf.Auth.TLS none).result = .ok (some
        { RootCAs := some ((w.pemCertificates data).foldl CertPool.AddCert NewCertPool),
          MinVersion := VersionTLS12, Certificates := [] }) := by
      rw [caBlock_loaded w conf.Auth.TLS none data hp hr hc]
    refine ⟨_, ?_, hca, ?_⟩
    · intro x
      rw [mem_foldl_AddCert]
      simp [NewCertPool]
    · intro d hd
      rcases hdial _ hca d hd with h | ⟨cert, h⟩
      · exact ⟨_, h, rfl⟩
      · exact ⟨_, h, rfl⟩
  · intro hp
    have hca : caBlock w conf.Auth.TLS none = ⟨[], .ok none⟩ :=
      caBlock_empty w conf.Auth.TLS none hp
    have hcr : (caBlock w conf.Auth.TLS none).result = .ok none := by rw [hca]
    constructor
    · intro path hmem
      rw [GetDefaultConfig_trace, dialerBlock_of_ca_ok w conf none he hcr, hca] at hmem
      exact keyPairBlock_no_read w conf.Auth.TLS none path (by simpa using hmem)
    · intro d hd c hc
      rcases hdial none hcr d hd with h | ⟨cert, h⟩
      · rw [h] at hc
        cases hc
      · rw [h] at hc
        cases hc
        rfl
  · intro g0 c g1 s hi hk hca
    subst hk
    have hd : (dialerBlock w c.Kafka).result = .error s := by
      rw [dialerBlock_of_ca_error w c.Kafka s he hca]
    rw [main_of_GetDefaultConfig_error w g0 c g1 s hi hd]
    refine ⟨rfl, ?_⟩
    intro e hmem
    rcases List.mem_append.mp hmem with h1 | h2
    · exact (InitConfig_ok w g0 c g1 hi).2 e h1
    · rcases dialerBlock_events w c.Kafka e h2 with h | h <;> subst h <;> simp

/-- C8 at a TLS-enabled configuration whose CA file `junk.pem` holds no
certificate: `GetDefaultConfig` panics, and `main`, started on a configuration
file with these settings, stops with the same panic before the listener. -/
theorem ca_stage_witness :
    (GetDefaultConfig (sampleWorld {}) sampleGlobals
      (sampleConf true "junk.pem" "" "" 0)).result = .error (.unableToAppendCA "junk.pem") ∧
    (main (sampleWorld ⟨sampleConf true "junk.pem" "" "" 0⟩) sampleGlobals).result
      = .error (.unableToAppendCA "junk.pem") ∧
    Event.listenAndServe ∉
      (main (sampleWorld ⟨sampleConf true "junk.pem" "" "" 0⟩) sampleGlobals).trace :=
  ⟨((ca_stage (sampleWorld {}) sampleGlobals (sampleConf true "junk.pem" "" "" 0) rfl).2.1
      [9] (by decide) rfl rfl).2,
   ((ca_stage (sampleWorld ⟨sampleConf true "junk.pem" "" "" 0⟩) sampleGlobals
      (sampleConf true "junk.pem" "" "" 0) rfl).2.2.2.2 sampleGlobals
      ⟨sampleConf true "junk.pem" "" "" 0⟩ { sampleGlobals with
        Conf := ⟨sampleConf true "junk.pem" "" "" 0⟩ }
      (.unableToAppendCA "junk.pem") rfl rfl rfl).1,
   fun h => (((ca_stage (sampleWorld ⟨sampleConf true "junk.pem" "" "" 0⟩) sampleGlobals
      (sampleConf true "junk.pem" "" "" 0) rfl).2.2.2.2 sampleGlobals
      ⟨sampleConf true "junk.pem" "" "" 0⟩ { sampleGlobals with
        Conf := ⟨sampleConf true "junk.pem" "" "" 0⟩ }
      (.unableToAppendCA "junk.pem") rfl rfl rfl).2 _ h).1 rfl⟩

/-- On a configuration file with TLS, the CA file `ca.pem` and the key pair
`cert.pem`, `key.pem`, `main` runs to the end: it reads the configuration, the
CA file and the key pair, creates the client, the router and the server, starts
the listener, and shuts down on a signal. -/
theorem main_serves :
    main (sampleWorld ⟨sampleConf true "ca.pem" "cert.pem" "key.pem" 512⟩) sampleGlobals =
      ⟨[.getenv "CONFIG_FILE", .readConfig "conf.yaml", .readFile "ca.pem",
        .loadX509KeyPair "cert.pem" "key.pem", .newClient, .routerPost "/",
        .newServer ":8080", .listenAndServe, .slogInfo "Started server", .signalNotify,
        .signalReceived, .slogInfo "Received sigterm shutting down",
        .shutdown 10000000000], .ok ()⟩ := by
  rfl

end TiborRest
